import Mathlib

/-!
Shallow embedding of `pkg/kubectl/resource/builder.go`: the resource
selection `Builder`, its configuration accumulators, the evaluation
function `visitorResult`, and the final assembly `Do`.

External collaborators (the REST mapper, label-selector parsing, the
client factory, and the per-name fetch) are modelled as an oracle record
`Mapper` of pure functions; client construction and fetches are recorded
in an explicit effect trace so that "zero network calls" properties are
statable.  Visitors are modelled syntactically, as the tree of visitor
constructors the Go code builds (`VisitorList`, `EagerVisitorList`,
`NewFlattenListVisitor`, `NewDecoratedVisitor`, `NewSelector`, `NewInfo`,
and the path-source visitors), since the claims under study concern which
tree is assembled, not the iteration behaviour of the tree.
-/

namespace KubectlResource

/-- Errors.  `configErr` models a `fmt.Errorf` produced by the builder
itself; `aggregate` models `errors.NewAggregate`; `oracleErr` models an
error returned by an external collaborator (mapper lookup, client
construction, fetch); `panicErr` marks a Go runtime panic path that is
provably unreachable in context. -/
inductive Err : Type where
  | configErr : String → Err
  | aggregate : List Err → Err
  | oracleErr : String → Err
  | panicErr : String → Err

/-- Embeds `meta.RESTMapping`: the resolved identity of an API resource type.
`resource` is the canonical plural resource name; `namespaced` models
`Scope.Name() == meta.RESTScopeNameNamespace`. -/
structure RESTMapping : Type where
  apiVersion : String
  kind : String
  resource : String
  namespaced : Bool
deriving DecidableEq, Repr

/-- A label selector, modelled as its list of requirements;
`labels.Everything()` is the empty list and `Selector.Empty()` is
emptiness of that list. -/
abbrev labels.Selector : Type := List String

/-- Embeds `labels.Everything()`. -/
def labels.Everything : labels.Selector := []

/-- The decorator functions passed to `NewDecoratedVisitor` in `Do` and in
the path branch of `visitorResult`. -/
inductive HelperTag : Type where
  | setNamespace : String → HelperTag
  | requireNs : String → HelperTag
  | filterNamespace : HelperTag
  | retrieveLatest : HelperTag
  | retrieveLazy : HelperTag
deriving DecidableEq, Repr

/-- The visitor tree the builder assembles.  Constructors correspond
one-to-one to the Go constructors: `URLVisitor`, `NewStreamVisitor`,
`DirectoryVisitor`, `PathVisitor`, `NewSelector`, `NewInfo`,
`VisitorList`, `EagerVisitorList`, `NewFlattenListVisitor`,
`NewDecoratedVisitor`.  Clients are identified by the `Nat` handle the
oracle returned. -/
inductive Visitor : Type where
  | url : String → Visitor
  | streamV : String → Bool → Visitor
  | directory : String → Bool → Visitor
  | pathV : String → Bool → Visitor
  | selectorV : Nat → RESTMapping → String → labels.Selector → Visitor
  | info : Nat → RESTMapping → String → String → Visitor
  | visitorList : List Visitor → Visitor
  | eagerVisitorList : List Visitor → Visitor
  | flattenList : Visitor → Visitor
  | decorated : Visitor → List HelperTag → Visitor

/-- Embeds `resourceTuple`: a raw `resource/name` pair. -/
structure ResourceTuple : Type where
  Resource : String
  Name : String
deriving DecidableEq, Repr

/-- The accumulated state of `Builder` (the struct fields of
`resource.Builder`, minus the mapper pointer, which is passed
separately). -/
structure Builder : Type where
  errs : List Err := []
  paths : List Visitor := []
  stream : Bool := false
  dir : Bool := false
  selector : Option labels.Selector := none
  selectAll : Bool := false
  resources : List String := []
  «namespace» : String := ""
  names : List String := []
  resourceTuples : List ResourceTuple := []
  defaultNamespace : Bool := false
  requireNamespace : Bool := false
  flatten : Bool := false
  latest : Bool := false
  singleResourceType : Bool := false
  continueOnError : Bool := false

/-- Observable external calls: client construction
(`ClientForMapping`) and an inline fetch (`Info.Get`). -/
inductive Effect : Type where
  | clientFor : RESTMapping → Effect
  | fetch : Nat → RESTMapping → String → String → Effect
deriving DecidableEq, Repr

/-- The oracle for the external collaborators of the builder: alias
expansion, `VersionAndKindForResource`, `RESTMapping`,
`ClientForMapping` (returning a client handle), and the outcome of
`Info.Get` (`none` = success). -/
structure Mapper : Type where
  aliasesForResource : String → Option (List String)
  versionAndKindForResource : String → Except Err (String × String)
  restMapping : String → String → Except Err RESTMapping
  clientForMapping : RESTMapping → Except Err Nat
  getInfo : Nat → RESTMapping → String → String → Option Err

/-- Embeds `resource.Result`: the Go zero values `false`, `nil`, `nil`, `nil`
are the defaults. -/
structure Result : Type where
  singular : Bool := false
  err : Option Err := none
  visitor : Option Visitor := none
  sources : List Visitor := []

/-- Splitting a character list at a separator, accumulating the current
segment in reverse. -/
def splitOnCharAux (sep : Char) : List Char → List Char → List String
  | [], acc => [⟨acc.reverse⟩]
  | c :: rest, acc =>
    if c == sep then ⟨acc.reverse⟩ :: splitOnCharAux sep rest []
    else splitOnCharAux sep rest (c :: acc)

/-- Go `strings.Split(s, sep)` for the one-character separators the
builder uses (`","` and `"/"`). -/
def splitOnChar (sep : Char) (s : String) : List String :=
  splitOnCharAux sep s.data []

/-- Order-preserving de-duplication against a `seen` accumulator, the
loop body of `SplitResourceArgument` (`util.StringSet` modelled as the
list of strings inserted so far). -/
def dedupAux (seen : List String) : List String → List String
  | [] => []
  | s :: rest => if s ∈ seen then dedupAux seen rest else s :: dedupAux (s :: seen) rest

/-- Embeds `SplitResourceArgument`: splits the argument with commas and returns
unique strings in the original order. -/
def SplitResourceArgument (arg : String) : List String :=
  dedupAux [] (splitOnChar ',' arg)

/-- Modelled from the spec: the canonical order-preserving first-occurrence
de-duplication ("the distinct segments in order of first occurrence") —
keep the head, delete every later occurrence of it, recurse.  A
reference definition to compare `SplitResourceArgument` against. -/
def firstOccurrenceDedup : List String → List String
  | [] => []
  | x :: xs => x :: firstOccurrenceDedup (xs.filter fun y => y != x)
termination_by l => l.length
decreasing_by
  simp only [List.length_cons]
  exact Nat.lt_succ_of_le (List.length_filter_le _ _)

/-- Embeds `Builder.ResourceTypes`: appends to the bulk resource-type list. -/
def Builder.ResourceTypes (b : Builder) (types : List String) : Builder :=
  { b with resources := b.resources ++ types }

/-- Embeds `Builder.Selector`: stores a selector directly. -/
def Builder.Selector (b : Builder) (selector : labels.Selector) : Builder :=
  { b with selector := some selector }

/-- Embeds `Builder.SelectorParam`.  Label-selector parsing is external
(`labels.Parse`); it is passed in as the oracle `parse`.  An unparsable
string records an error; a selector that parses empty is a no-op; a
non-empty selector conflicts with a previously set `selectAll`. -/
def Builder.SelectorParam (b : Builder) (parse : String → Except String labels.Selector)
    (s : String) : Builder :=
  match parse s with
  | .error e =>
    { b with errs := b.errs ++ [.configErr ("the provided selector " ++ s ++ " is not valid: " ++ e)] }
  | .ok selector =>
    if selector.isEmpty then b
    else if b.selectAll then
      { b with errs := b.errs ++ [.configErr ("found non empty selector " ++ s ++ " with previously set 'all' parameter. ")] }
    else b.Selector selector

/-- Embeds `Builder.NamespaceParam`. -/
def Builder.NamespaceParam (b : Builder) (ns : String) : Builder :=
  { b with «namespace» := ns }

/-- Embeds `Builder.SelectAllParam`: setting `all` conflicts with an already
present (non-nil) selector. -/
def Builder.SelectAllParam (b : Builder) (selectAll : Bool) : Builder :=
  if selectAll && b.selector.isSome then
    { b with errs := b.errs ++ [.configErr "setting 'all' parameter but found a non empty selector. "] }
  else { b with selectAll := selectAll }

/-- Embeds `replaceAliases`: each argument that the mapper knows as an alias is
replaced by the comma-joined expansion. -/
def replaceAliases (m : Mapper) (args : List String) : List String :=
  args.map fun arg =>
    match m.aliasesForResource arg with
    | some aliases => String.intercalate "," aliases
    | none => arg

/-- Embeds `hasCombinedTypeArgs`: whether the arguments are in `resource/name`
form, and the error when only some of them are. -/
def hasCombinedTypeArgs (args : List String) : Bool × Option Err :=
  let hasSlash := (args.filter fun s => s.data.contains '/').length
  if hasSlash > 0 && hasSlash == args.length then (true, none)
  else if hasSlash > 0 then
    (true, some (.configErr "when passing arguments in resource/name form, all arguments must include the resource"))
  else (false, none)

/-- The tuple-accumulating loop of `ResourceTypeOrNameArgs`: each
argument must split into exactly one nonempty resource and one nonempty
name; the first malformed argument records an error and stops the loop
(tuples appended so far are kept). -/
def parseTupleArgs (b : Builder) : List String → Builder
  | [] => b
  | s :: rest =>
    match splitOnChar '/' s with
    | [resource, name] =>
      if resource.length == 0 || name.length == 0 || (SplitResourceArgument resource).length != 1 then
        { b with errs := b.errs ++ [.configErr "arguments in resource/name form must have a single resource and name"] }
      else
        parseTupleArgs { b with resourceTuples := b.resourceTuples ++ [⟨resource, name⟩] } rest
    | _ =>
      { b with errs := b.errs ++ [.configErr "arguments in resource/name form may not have more than one slash"] }

/-- Embeds `Builder.ResourceTypeOrNameArgs`: accepts `type[,type...]`,
`type name...`, or `type/name...` argument lists, after alias
replacement. -/
def Builder.ResourceTypeOrNameArgs (b : Builder) (m : Mapper) (allowEmptySelector : Bool)
    (args0 : List String) : Builder :=
  match hasCombinedTypeArgs (replaceAliases m args0) with
  | (true, some e) => { b with errs := b.errs ++ [e] }
  | (true, none) => parseTupleArgs b (replaceAliases m args0)
  | (false, _) =>
    match replaceAliases m args0 with
    | [] => b
    | [a0] =>
      let b := b.ResourceTypes (SplitResourceArgument a0)
      if b.selector.isNone && allowEmptySelector then { b with selector := some labels.Everything } else b
    | a0 :: restArgs =>
      let b := { b with names := b.names ++ restArgs }
      b.ResourceTypes (SplitResourceArgument a0)

/-- The resolution loop of `resourceMappings`: each resource string is
resolved to a version/kind and then to a mapping; the first failure
aborts. -/
def resolveResources (m : Mapper) : List String → Except Err (List RESTMapping)
  | [] => .ok []
  | r :: rest => do
    let vk ← m.versionAndKindForResource r
    let mapping ← m.restMapping vk.2 vk.1
    let more ← resolveResources m rest
    return mapping :: more

/-- Embeds `Builder.resourceMappings`: the single-resource-type policy is
checked against the number of raw resource strings, before any
resolution. -/
def Builder.resourceMappings (b : Builder) (m : Mapper) : Except Err (List RESTMapping) :=
  if b.resources.length > 1 && b.singleResourceType then
    .error (.configErr "you may only specify a single resource type")
  else resolveResources m b.resources

/-- Insertion into a Go `map` modelled as a key-deduplicated association
list: an existing key is updated in place, a new key is appended. -/
def insertAssoc (l : List (String × RESTMapping)) (k : String) (v : RESTMapping) :
    List (String × RESTMapping) :=
  if (l.lookup k).isSome then l.map fun p => if p.1 == k then (k, v) else p
  else l ++ [(k, v)]

/-- The resolution loop of `resourceTupleMappings`: resolves each
distinct tuple resource string once, recording the mapping under both
the raw string and the canonical resource name, and collecting the set
of canonical names. -/
def buildTupleMappings (m : Mapper) :
    List ResourceTuple → List (String × RESTMapping) → List String →
      Except Err (List (String × RESTMapping) × List String)
  | [], mappings, canonical => .ok (mappings, canonical)
  | t :: rest, mappings, canonical =>
    if (mappings.lookup t.Resource).isSome then
      buildTupleMappings m rest mappings canonical
    else
      match m.versionAndKindForResource t.Resource with
      | .error e => .error e
      | .ok vk =>
        match m.restMapping vk.2 vk.1 with
        | .error e => .error e
        | .ok mapping =>
          buildTupleMappings m rest
            (insertAssoc (insertAssoc mappings mapping.resource mapping) t.Resource mapping)
            (if mapping.resource ∈ canonical then canonical else canonical ++ [mapping.resource])

/-- Embeds `Builder.resourceTupleMappings`: the single-resource-type policy is
checked against the number of distinct canonical resource names, after
resolution. -/
def Builder.resourceTupleMappings (b : Builder) (m : Mapper) :
    Except Err (List (String × RESTMapping)) :=
  match buildTupleMappings m b.resourceTuples [] [] with
  | .error e => .error e
  | .ok (mappings, canonical) =>
    if canonical.length > 1 && b.singleResourceType then
      .error (.configErr "you may only specify a single resource type")
    else .ok mappings

/-- The client loop of the selector branch: one `ClientForMapping` call
per mapping (traced), aborting on the first failure; each success yields
a `NewSelector` visitor scoped to the effective namespace. -/
def selectorVisitors (m : Mapper) (ns : String) (sel : labels.Selector) :
    List RESTMapping → Except Err (List Visitor) × List Effect
  | [] => (.ok [], [])
  | mapping :: rest =>
    match m.clientForMapping mapping with
    | .error e => (.error e, [.clientFor mapping])
    | .ok client =>
      let selNs := if mapping.namespaced then ns else ""
      match selectorVisitors m ns sel rest with
      | (.error e, effs) => (.error e, .clientFor mapping :: effs)
      | (.ok vs, effs) => (.ok (.selectorV client mapping selNs sel :: vs), .clientFor mapping :: effs)

/-- The client loop of the tuple branch: one client per distinct
`apiVersion/resource` key, built from the map's values (traced),
aborting on the first failure. -/
def buildClients (m : Mapper) :
    List RESTMapping → List (String × Nat) → Except Err (List (String × Nat)) × List Effect
  | [], clients => (.ok clients, [])
  | mapping :: rest, clients =>
    let s := mapping.apiVersion ++ "/" ++ mapping.resource
    if (clients.lookup s).isSome then buildClients m rest clients
    else
      match m.clientForMapping mapping with
      | .error e => (.error e, [.clientFor mapping])
      | .ok client =>
        match buildClients m rest (clients ++ [(s, client)]) with
        | (res, effs) => (res, .clientFor mapping :: effs)

/-- The item loop of the tuple branch: each tuple is matched to its
mapping and client and becomes a `NewInfo` visitor; a missing mapping,
missing client, or empty namespace on a namespaced mapping aborts with a
`Result` carrying the given `singular` flag. -/
def tupleItems (ns : String) (mappings : List (String × RESTMapping))
    (clients : List (String × Nat)) (isSingular : Bool) :
    List ResourceTuple → Except Result (List Visitor)
  | [] => .ok []
  | t :: rest =>
    match mappings.lookup t.Resource with
    | none =>
      .error { singular := isSingular,
               err := some (.configErr ("resource " ++ t.Resource ++ " is not recognized")) }
    | some mapping =>
      match clients.lookup (mapping.apiVersion ++ "/" ++ mapping.resource) with
      | none =>
        .error { singular := isSingular,
                 err := some (.configErr ("could not find a client for resource " ++ t.Resource)) }
      | some client =>
        if mapping.namespaced && ns.length == 0 then
          .error { singular := isSingular,
                   err := some (.configErr "namespace may not be empty when retrieving a resource by name") }
        else
          let selNs := if mapping.namespaced then ns else ""
          (tupleItems ns mappings clients isSingular rest).map
            fun items => .info client mapping selNs t.Name :: items

/-- The fetch loop of the name branch: each name becomes a `NewInfo`
that is fetched inline (`Info.Get`, traced); the first fetch failure
aborts with that error, leaving the remaining names unattempted. -/
def nameInfos (m : Mapper) (client : Nat) (mapping : RESTMapping) (ns : String) :
    List String → Except Err (List Visitor) × List Effect
  | [] => (.ok [], [])
  | n :: rest =>
    match m.getInfo client mapping ns n with
    | some e => (.error e, [.fetch client mapping ns n])
    | none =>
      match nameInfos m client mapping ns rest with
      | (res, effs) =>
        (res.map fun vs => .info client mapping ns n :: vs, .fetch client mapping ns n :: effs)

/-- The `resourceTuples` branch of `visitorResult`. -/
def tupleMode (m : Mapper) (b : Builder) : Result × List Effect :=
  let isSingular := b.resourceTuples.length == 1
  if b.paths.length != 0 then
    ({ singular := isSingular,
       err := some (.configErr "when paths, URLs, or stdin is provided as input, you may not specify a resource by arguments as well") }, [])
  else if b.resources.length != 0 then
    ({ singular := isSingular,
       err := some (.configErr "you may not specify individual resources and bulk resources in the same call") }, [])
  else
    match b.resourceTupleMappings m with
    | .error e => ({ singular := isSingular, err := some e }, [])
    | .ok mappings =>
      match buildClients m (mappings.map Prod.snd) [] with
      | (.error e, effs) => ({ err := some e }, effs)
      | (.ok clients, effs) =>
        match tupleItems b.«namespace» mappings clients isSingular b.resourceTuples with
        | .error r => (r, effs)
        | .ok items =>
          let visitors : Visitor :=
            if b.continueOnError then .eagerVisitorList items else .visitorList items
          ({ singular := isSingular, visitor := some visitors, sources := items }, effs)

/-- The `names` branch of `visitorResult`. -/
def nameMode (m : Mapper) (b : Builder) : Result × List Effect :=
  let isSingular := b.names.length == 1
  if b.paths.length != 0 then
    ({ singular := isSingular,
       err := some (.configErr "when paths, URLs, or stdin is provided as input, you may not specify a resource by arguments as well") }, [])
  else if b.resources.length == 0 then
    ({ singular := isSingular,
       err := some (.configErr "you must provide a resource and a resource name together") }, [])
  else if b.resources.length > 1 then
    ({ singular := isSingular, err := some (.configErr "you must specify only one resource") }, [])
  else
    match b.resourceMappings m with
    | .error e => ({ singular := isSingular, err := some e }, [])
    | .ok [] => ({ err := some (.panicErr "index out of range") }, [])
    | .ok (mapping :: _) =>
      match m.clientForMapping mapping with
      | .error e => ({ err := some e }, [.clientFor mapping])
      | .ok client =>
        if mapping.namespaced && b.«namespace».length == 0 then
          ({ singular := isSingular,
             err := some (.configErr "namespace may not be empty when retrieving a resource by name") },
           [.clientFor mapping])
        else
          let selNs := if mapping.namespaced then b.«namespace» else ""
          match nameInfos m client mapping selNs b.names with
          | (.error e, effs) => ({ singular := isSingular, err := some e }, .clientFor mapping :: effs)
          | (.ok visitors, effs) =>
            ({ singular := isSingular, visitor := some (.visitorList visitors), sources := visitors },
             .clientFor mapping :: effs)

/-- The `paths` branch of `visitorResult`: only items from disk can be
refetched, and lists must be flattened prior to fetching. -/
def pathMode (b : Builder) : Result × List Effect :=
  let singular := !b.dir && !b.stream && b.paths.length == 1
  if b.resources.length != 0 then
    ({ singular := singular,
       err := some (.configErr "when paths, URLs, or stdin is provided as input, you may not specify resource arguments as well") }, [])
  else
    let visitors : Visitor :=
      if b.continueOnError then .eagerVisitorList b.paths else .visitorList b.paths
    let visitors :=
      if b.latest then
        .decorated (if b.flatten then .flattenList visitors else visitors) [.retrieveLatest]
      else visitors
    ({ singular := singular, visitor := some visitors, sources := b.paths }, [])

/-- The selector branch of `visitorResult` (entered when the selector is
non-nil after `selectAll` substitution). -/
def selectorMode (m : Mapper) (b : Builder) (sel : labels.Selector) : Result × List Effect :=
  if b.names.length != 0 then
    ({ err := some (.configErr "name cannot be provided when a selector is specified") }, [])
  else if b.resourceTuples.length != 0 then
    ({ err := some (.configErr "selectors and the all flag cannot be used when passing resource/name arguments") }, [])
  else if b.resources.length == 0 then
    ({ err := some (.configErr "at least one resource must be specified to use a selector") }, [])
  else if b.paths.length != 0 then
    if sel.isEmpty then
      ({ err := some (.configErr "when paths, URLs, or stdin is provided as input, you may not specify a resource by arguments as well") }, [])
    else
      ({ err := some (.configErr "a selector may not be specified when path, URL, or stdin is provided as input") }, [])
  else
    match b.resourceMappings m with
    | .error e => ({ err := some e }, [])
    | .ok mappings =>
      match selectorVisitors m b.«namespace» sel mappings with
      | (.error e, effs) => ({ err := some e }, effs)
      | (.ok visitors, effs) =>
        if b.continueOnError then
          ({ visitor := some (.eagerVisitorList visitors), sources := visitors }, effs)
        else
          ({ visitor := some (.visitorList visitors), sources := visitors }, effs)

/-- The `selectAll` substitution at the top of `visitorResult`: when
`selectAll` is set the selector becomes `labels.Everything()`. -/
def Builder.evalBuilder (b : Builder) : Builder :=
  if b.selectAll then { b with selector := some labels.Everything } else b

/-- Embeds `Builder.visitorResult`: accumulated errors short-circuit as an
aggregate; otherwise `selectAll` substitutes `labels.Everything()` and
the decision tree dispatches to exactly one of the selector, tuple,
name, or path branches. -/
def Builder.visitorResult (b0 : Builder) (m : Mapper) : Result × List Effect :=
  if b0.errs.length > 0 then ({ err := some (.aggregate b0.errs) }, [])
  else
    match b0.evalBuilder.selector with
    | some sel => selectorMode m b0.evalBuilder sel
    | none =>
      if b0.evalBuilder.resourceTuples.length != 0 then tupleMode m b0.evalBuilder
      else if b0.evalBuilder.names.length != 0 then nameMode m b0.evalBuilder
      else if b0.evalBuilder.paths.length != 0 then pathMode b0.evalBuilder
      else ({ err := some (.configErr "you must provide one or more resources by argument or filename") }, [])

/-- The decorator list `Do` assembles, in its fixed order. -/
def doHelpers (b : Builder) : List HelperTag :=
  (if b.defaultNamespace then [.setNamespace b.«namespace»] else []) ++
  (if b.requireNamespace then [.requireNs b.«namespace»] else []) ++
  [.filterNamespace] ++
  (if b.latest then [.retrieveLazy] else [])

/-- Embeds `Builder.Do`: an erroring `visitorResult` is returned unchanged;
otherwise the visitor is wrapped in a flatten (whenever requested) and
then the decorator chain. -/
def Builder.Do (b : Builder) (m : Mapper) : Result × List Effect :=
  match b.visitorResult m with
  | (r, effs) =>
    if r.err.isSome then (r, effs)
    else
      let v := if b.flatten then r.visitor.map .flattenList else r.visitor
      ({ r with visitor := v.map fun vv => .decorated vv (doHelpers b) }, effs)

/-- Whether the selector mode is populated at evaluation time: a non-nil
selector, or `selectAll` (which substitutes the synthetic
`labels.Everything()` selector). -/
def Builder.selectorPopulated (b : Builder) : Bool :=
  b.selectAll || b.selector.isSome

/-- The mode combinations that the decision tree of `visitorResult`
forbids: the selector mode against names, tuples, or path sources, and
each of the tuple, name, and path modes against path sources or bulk
resource-type arguments. -/
def Builder.forbiddenModeMix (b : Builder) : Prop :=
  (b.selectorPopulated = true ∧ (b.names ≠ [] ∨ b.resourceTuples ≠ [] ∨ b.paths ≠ []))
  ∨ (b.resourceTuples ≠ [] ∧ b.paths ≠ [])
  ∨ (b.resourceTuples ≠ [] ∧ b.resources ≠ [])
  ∨ (b.names ≠ [] ∧ b.paths ≠ [])
  ∨ (b.paths ≠ [] ∧ b.resources ≠ [])

/-- Modelled from the spec: "`singular` is true iff exactly one concrete
resource identity can result (single name, single tuple, single
non-directory non-stream path)", per mode, for comparison with the
`singular` flag `visitorResult` actually sets. -/
def Builder.specSingular (b : Builder) : Bool :=
  if b.selectorPopulated then false
  else if b.resourceTuples.length != 0 then b.resourceTuples.length == 1
  else if b.names.length != 0 then b.names.length == 1
  else if b.paths.length != 0 then !b.dir && !b.stream && b.paths.length == 1
  else false

/-- A mapping fixture: the canonical `pods` type. -/
def podMapping : RESTMapping := ⟨"v1", "Pod", "pods", true⟩

/-- A mapping fixture: the canonical `services` type. -/
def svcMapping : RESTMapping := ⟨"v1", "Service", "services", true⟩

/-- A cluster-scoped mapping fixture. -/
def nodeMapping : RESTMapping := ⟨"v1", "Node", "nodes", false⟩

/-- A concrete oracle: `po` and `pods` both resolve to the canonical
`pods` type, `services` and `nodes` to theirs; fetching the name
`missing` fails, every other fetch succeeds. -/
def testMapper : Mapper where
  aliasesForResource := fun _ => none
  versionAndKindForResource := fun r =>
    if r == "pods" || r == "po" then .ok ("v1", "Pod")
    else if r == "services" then .ok ("v1", "Service")
    else if r == "nodes" then .ok ("v1", "Node")
    else .error (.oracleErr ("no resource " ++ r))
  restMapping := fun kind version =>
    if kind == "Pod" && version == "v1" then .ok podMapping
    else if kind == "Service" && version == "v1" then .ok svcMapping
    else if kind == "Node" && version == "v1" then .ok nodeMapping
    else .error (.oracleErr ("no mapping for " ++ kind))
  clientForMapping := fun mapping =>
    if mapping.resource == "pods" then .ok 1
    else if mapping.resource == "services" then .ok 2
    else .ok 3
  getInfo := fun _ _ _ name =>
    if name == "missing" then some (.oracleErr "pod not found") else none

/-- A concrete label-selector parser: the empty string parses to the
empty selector, `bad` fails to parse, anything else is a single
requirement. -/
def testParse : String → Except String labels.Selector := fun s =>
  if s == "" then .ok []
  else if s == "bad" then .error "unparsable"
  else .ok [s]

theorem mem_dedupAux (x : String) (l seen : List String) :
    x ∈ dedupAux seen l ↔ x ∈ l ∧ x ∉ seen := by
  induction l generalizing seen with
  | nil => simp [dedupAux]
  | cons s rest ih =>
    by_cases h : s ∈ seen
    · rw [dedupAux, if_pos h, ih]
      constructor
      · rintro ⟨hx, hns⟩
        exact ⟨List.mem_cons_of_mem _ hx, hns⟩
      · rintro ⟨hx, hns⟩
        rcases List.mem_cons.mp hx with rfl | hx
        · exact absurd h hns
        · exact ⟨hx, hns⟩
    · rw [dedupAux, if_neg h]
      by_cases hxs : x = s
      · subst hxs
        simp [h]
      · simp only [List.mem_cons, hxs, false_or, ih]

theorem dedupAux_nodup (l seen : List String) : (dedupAux seen l).Nodup := by
  induction l generalizing seen with
  | nil => simp [dedupAux]
  | cons s rest ih =>
    by_cases h : s ∈ seen
    · rw [dedupAux, if_pos h]
      exact ih seen
    · rw [dedupAux, if_neg h]
      refine List.nodup_cons.mpr ⟨fun hmem => ?_, ih (s :: seen)⟩
      exact ((mem_dedupAux s rest (s :: seen)).mp hmem).2 (List.mem_cons_self s seen)

theorem dedupAux_sublist (l seen : List String) : (dedupAux seen l).Sublist l := by
  induction l generalizing seen with
  | nil => simp [dedupAux]
  | cons s rest ih =>
    by_cases h : s ∈ seen
    · rw [dedupAux, if_pos h]
      exact (ih seen).trans (List.sublist_cons_self s rest)
    · rw [dedupAux, if_neg h]
      exact (ih (s :: seen)).cons₂ s

theorem dedupAux_eq_firstOccurrenceDedup (l : List String) : ∀ seen : List String,
    dedupAux seen l = firstOccurrenceDedup (l.filter fun y => decide (y ∉ seen)) := by
  induction l with
  | nil =>
    intro seen
    simp [dedupAux, firstOccurrenceDedup]
  | cons x rest ih =>
    intro seen
    by_cases hx : x ∈ seen
    · rw [dedupAux, if_pos hx, ih seen]
      congr 1
      rw [List.filter_cons]
      simp [hx]
    · have hd : decide (x ∉ seen) = true := by simp [hx]
      rw [dedupAux, if_neg hx, ih (x :: seen), List.filter_cons, if_pos hd,
        firstOccurrenceDedup]
      congr 1
      rw [List.filter_filter]
      congr 1
      apply List.filter_congr
      intro y hy
      by_cases hyx : y = x
      · simp [hyx]
      · by_cases hys : y ∈ seen <;> simp [hyx, hys]

/-- C7: for every comma-separated argument string,
`SplitResourceArgument` returns exactly the distinct segments in order
of first occurrence: it equals the canonical first-occurrence
de-duplication of the raw comma split (and is therefore duplicate-free,
a subsequence of the raw split, and contains every segment of the raw
split); in particular
`SplitResourceArgument "pods,services,pods" = ["pods", "services"]`. -/
theorem splitResourceArgument_dedups_in_order :
    SplitResourceArgument "pods,services,pods" = ["pods", "services"] ∧
    ∀ arg : String,
      SplitResourceArgument arg = firstOccurrenceDedup (splitOnChar ',' arg) ∧
      (SplitResourceArgument arg).Nodup ∧
      (SplitResourceArgument arg).Sublist (splitOnChar ',' arg) ∧
      ∀ s : String, s ∈ SplitResourceArgument arg ↔ s ∈ splitOnChar ',' arg := by
  refine ⟨rfl, fun arg => ⟨?_, dedupAux_nodup _ _, dedupAux_sublist _ _, fun s => ?_⟩⟩
  · have h0 := dedupAux_eq_firstOccurrenceDedup (splitOnChar ',' arg) []
    simpa using h0
  · rw [SplitResourceArgument, mem_dedupAux]
    simp

theorem length_bne_zero_of_ne_nil {α : Type} {l : List α} (h : l ≠ []) :
    (l.length != 0) = true := by
  simp [bne_iff_ne, List.length_eq_zero, h]

@[simp] theorem evalBuilder_errs (b : Builder) : b.evalBuilder.errs = b.errs := by
  rw [Builder.evalBuilder]; split <;> rfl

@[simp] theorem evalBuilder_paths (b : Builder) : b.evalBuilder.paths = b.paths := by
  rw [Builder.evalBuilder]; split <;> rfl

@[simp] theorem evalBuilder_names (b : Builder) : b.evalBuilder.names = b.names := by
  rw [Builder.evalBuilder]; split <;> rfl

@[simp] theorem evalBuilder_resources (b : Builder) : b.evalBuilder.resources = b.resources := by
  rw [Builder.evalBuilder]; split <;> rfl

@[simp] theorem evalBuilder_resourceTuples (b : Builder) :
    b.evalBuilder.resourceTuples = b.resourceTuples := by
  rw [Builder.evalBuilder]; split <;> rfl

@[simp] theorem evalBuilder_namespace (b : Builder) :
    b.evalBuilder.«namespace» = b.«namespace» := by
  rw [Builder.evalBuilder]; split <;> rfl

@[simp] theorem evalBuilder_dir (b : Builder) : b.evalBuilder.dir = b.dir := by
  rw [Builder.evalBuilder]; split <;> rfl

@[simp] theorem evalBuilder_stream (b : Builder) : b.evalBuilder.stream = b.stream := by
  rw [Builder.evalBuilder]; split <;> rfl

@[simp] theorem evalBuilder_continueOnError (b : Builder) :
    b.evalBuilder.continueOnError = b.continueOnError := by
  rw [Builder.evalBuilder]; split <;> rfl

@[simp] theorem evalBuilder_latest (b : Builder) : b.evalBuilder.latest = b.latest := by
  rw [Builder.evalBuilder]; split <;> rfl

@[simp] theorem evalBuilder_flatten (b : Builder) : b.evalBuilder.flatten = b.flatten := by
  rw [Builder.evalBuilder]; split <;> rfl

@[simp] theorem evalBuilder_singleResourceType (b : Builder) :
    b.evalBuilder.singleResourceType = b.singleResourceType := by
  rw [Builder.evalBuilder]; split <;> rfl

theorem evalBuilder_selector_of_selectAll {b : Builder} (h : b.selectAll = true) :
    b.evalBuilder.selector = some labels.Everything := by
  rw [Builder.evalBuilder, if_pos h]

theorem evalBuilder_selector_of_not_selectAll {b : Builder} (h : b.selectAll = false) :
    b.evalBuilder.selector = b.selector := by
  rw [Builder.evalBuilder, h]; rfl

/-- C2: a non-empty accumulated error list short-circuits
`visitorResult` with the aggregate of exactly those errors; no mode
branch runs (the `Result` carries no visitor and no sources, and the
effect trace is empty: no mapping resolution, client construction, or
fetch). -/
theorem visitorResult_short_circuits_accumulated_errors (b : Builder) (m : Mapper)
    (h : b.errs ≠ []) :
    b.visitorResult m = ({ err := some (.aggregate b.errs) }, []) := by
  have hlen : b.errs.length > 0 := List.length_pos.mpr h
  rw [Builder.visitorResult, if_pos hlen]

/-- Witness for C2 at a concrete builder with one accumulated error. -/
theorem visitorResult_short_circuits_accumulated_errors_witness :
    ({ errs := [.configErr "the path \"x\" does not exist"] } : Builder).errs ≠ [] ∧
    ({ errs := [.configErr "the path \"x\" does not exist"] } : Builder).visitorResult testMapper =
      ({ err := some (.aggregate [.configErr "the path \"x\" does not exist"]) }, []) :=
  ⟨by simp,
   visitorResult_short_circuits_accumulated_errors
     { errs := [.configErr "the path \"x\" does not exist"] } testMapper (by simp)⟩

/-- C10: when `visitorResult` produces a `Result` with a non-nil error,
`Do` returns that `Result` (and the effect trace) exactly as produced:
no flatten wrapper, no decorators, and every field unchanged. -/
theorem do_returns_error_result_unchanged (b : Builder) (m : Mapper) (r : Result)
    (effs : List Effect) (h : b.visitorResult m = (r, effs)) (herr : r.err ≠ none) :
    b.Do m = (r, effs) := by
  rw [Builder.Do, h]
  simp [Option.ne_none_iff_isSome.mp herr]

/-- Witness for C10 at a concrete erroring builder. -/
theorem do_returns_error_result_unchanged_witness :
    ({ errs := [.configErr "boom"] } : Builder).Do testMapper =
      ({ err := some (.aggregate [.configErr "boom"]) }, []) :=
  do_returns_error_result_unchanged { errs := [.configErr "boom"] } testMapper
    { err := some (.aggregate [.configErr "boom"]) } [] rfl (by simp)

/-- C8: combining `selectAll` with a non-empty selector records a
configuration error in either configuration order, while a selector
string that parses to the empty selector is a silent no-op that leaves
the builder unchanged (even when `selectAll` is already set). -/
theorem selectAll_selector_conflict_asymmetry (b : Builder)
    (parse : String → Except String labels.Selector) (s : String) (sel : labels.Selector) :
    (b.selectAll = true → parse s = .ok sel → sel ≠ [] →
      b.SelectorParam parse s =
        { b with errs := b.errs ++
            [.configErr ("found non empty selector " ++ s ++ " with previously set 'all' parameter. ")] }) ∧
    (∀ sel0 : labels.Selector, b.selector = some sel0 →
      b.SelectAllParam true =
        { b with errs := b.errs ++
            [.configErr "setting 'all' parameter but found a non empty selector. "] }) ∧
    (parse s = .ok [] → b.SelectorParam parse s = b) := by
  refine ⟨fun hall hp hne => ?_, fun sel0 hsel => ?_, fun hp => ?_⟩
  · rw [Builder.SelectorParam, hp]
    have hemp : sel.isEmpty = false := by
      cases sel with
      | nil => exact absurd rfl hne
      | cons a l => rfl
    simp [hemp, hall]
  · rw [Builder.SelectAllParam]
    simp [hsel]
  · rw [Builder.SelectorParam, hp]
    rfl

/-- Witness for C8: all three behaviours at concrete builders and the
concrete parser `testParse`. -/
theorem selectAll_selector_conflict_asymmetry_witness :
    (({ selectAll := true } : Builder).SelectorParam testParse "a=b" =
      { selectAll := true,
        errs := [.configErr "found non empty selector a=b with previously set 'all' parameter. "] }) ∧
    (({ selector := some ["a=b"] } : Builder).SelectAllParam true =
      { selector := some ["a=b"],
        errs := [.configErr "setting 'all' parameter but found a non empty selector. "] }) ∧
    (({ selectAll := true } : Builder).SelectorParam testParse "" = { selectAll := true }) :=
  ⟨(selectAll_selector_conflict_asymmetry { selectAll := true } testParse "a=b" ["a=b"]).1
      rfl rfl (by simp),
   (selectAll_selector_conflict_asymmetry { selector := some ["a=b"] } testParse "x" []).2.1
      ["a=b"] rfl,
   (selectAll_selector_conflict_asymmetry { selectAll := true } testParse "" []).2.2 rfl⟩

theorem selectorMode_mixed_error (m : Mapper) (b : Builder) (sel : labels.Selector)
    (h : b.names ≠ [] ∨ b.resourceTuples ≠ [] ∨ b.paths ≠ []) :
    ∃ msg : String, selectorMode m b sel = ({ err := some (.configErr msg) }, []) := by
  by_cases h1 : b.names = []
  case neg =>
    exact ⟨"name cannot be provided when a selector is specified",
      by rw [selectorMode, if_pos (length_bne_zero_of_ne_nil h1)]⟩
  by_cases h2 : b.resourceTuples = []
  case neg =>
    exact ⟨"selectors and the all flag cannot be used when passing resource/name arguments",
      by rw [selectorMode]; simp [h1, length_bne_zero_of_ne_nil h2]⟩
  have h3 : b.paths ≠ [] := by
    rcases h with h | h | h
    · exact absurd h1 h
    · exact absurd h2 h
    · exact h
  by_cases h4 : b.resources = []
  · exact ⟨"at least one resource must be specified to use a selector",
      by rw [selectorMode]; simp [h1, h2, h4]⟩
  by_cases h5 : sel.isEmpty
  · exact ⟨"when paths, URLs, or stdin is provided as input, you may not specify a resource by arguments as well",
      by rw [selectorMode]; simp [h1, h2, h4, h5, length_bne_zero_of_ne_nil h3]⟩
  · exact ⟨"a selector may not be specified when path, URL, or stdin is provided as input",
      by rw [selectorMode]; simp [h1, h2, h4, h5, length_bne_zero_of_ne_nil h3]⟩

theorem tupleMode_mixed_error (m : Mapper) (b : Builder)
    (h : b.paths ≠ [] ∨ b.resources ≠ []) :
    ∃ sing : Bool, ∃ msg : String,
      tupleMode m b = ({ singular := sing, err := some (.configErr msg) }, []) := by
  by_cases h1 : b.paths = []
  · have h2 : b.resources ≠ [] := by
      rcases h with h | h
      · exact absurd h1 h
      · exact h
    exact ⟨b.resourceTuples.length == 1,
      "you may not specify individual resources and bulk resources in the same call",
      by rw [tupleMode]; simp [h1, length_bne_zero_of_ne_nil h2]⟩
  · exact ⟨b.resourceTuples.length == 1,
      "when paths, URLs, or stdin is provided as input, you may not specify a resource by arguments as well",
      by rw [tupleMode, if_pos (length_bne_zero_of_ne_nil h1)]⟩

theorem nameMode_mixed_error (m : Mapper) (b : Builder) (h : b.paths ≠ []) :
    ∃ sing : Bool, ∃ msg : String,
      nameMode m b = ({ singular := sing, err := some (.configErr msg) }, []) :=
  ⟨b.names.length == 1,
   "when paths, URLs, or stdin is provided as input, you may not specify a resource by arguments as well",
   by rw [nameMode, if_pos (length_bne_zero_of_ne_nil h)]⟩

theorem pathMode_mixed_error (b : Builder) (h : b.resources ≠ []) :
    ∃ sing : Bool, ∃ msg : String,
      pathMode b = ({ singular := sing, err := some (.configErr msg) }, []) :=
  ⟨!b.dir && !b.stream && b.paths.length == 1,
   "when paths, URLs, or stdin is provided as input, you may not specify resource arguments as well",
   by rw [pathMode, if_pos (length_bne_zero_of_ne_nil h)]⟩

/-- C1: whenever two or more selection modes are populated in one of the
combinations the decision tree forbids, `visitorResult` returns a
`Result` whose error is a configuration error, with no visitor built, no
sources, and an empty effect trace (no client construction and no
fetch). -/
theorem visitorResult_forbidden_mix_config_error (b : Builder) (m : Mapper)
    (herrs : b.errs = []) (hmix : b.forbiddenModeMix) :
    ∃ sing : Bool, ∃ msg : String,
      b.visitorResult m = ({ singular := sing, err := some (.configErr msg) }, []) := by
  have hlen : ¬ b.errs.length > 0 := by simp [herrs]
  rw [Builder.visitorResult, if_neg hlen]
  by_cases hpop : b.selectorPopulated = true
  · -- selector mode is populated: the selector branch runs
    have hone : b.names ≠ [] ∨ b.resourceTuples ≠ [] ∨ b.paths ≠ [] := by
      rcases hmix with ⟨_, hs⟩ | ⟨ht, _⟩ | ⟨ht, _⟩ | ⟨hn, _⟩ | ⟨hp, _⟩
      · exact hs
      · exact Or.inr (Or.inl ht)
      · exact Or.inr (Or.inl ht)
      · exact Or.inl hn
      · exact Or.inr (Or.inr hp)
    have hone' : b.evalBuilder.names ≠ [] ∨ b.evalBuilder.resourceTuples ≠ [] ∨
        b.evalBuilder.paths ≠ [] := by simpa using hone
    rcases Bool.or_eq_true_iff.mp (by simpa [Builder.selectorPopulated] using hpop) with hsa | hss
    · rw [evalBuilder_selector_of_selectAll hsa]
      obtain ⟨msg, hmsg⟩ := selectorMode_mixed_error m b.evalBuilder labels.Everything hone'
      exact ⟨false, msg, hmsg⟩
    · obtain ⟨sel, hsel⟩ := Option.isSome_iff_exists.mp hss
      by_cases hsa : b.selectAll = true
      · rw [evalBuilder_selector_of_selectAll hsa]
        obtain ⟨msg, hmsg⟩ := selectorMode_mixed_error m b.evalBuilder labels.Everything hone'
        exact ⟨false, msg, hmsg⟩
      · rw [evalBuilder_selector_of_not_selectAll (by simpa using hsa), hsel]
        obtain ⟨msg, hmsg⟩ := selectorMode_mixed_error m b.evalBuilder sel hone'
        exact ⟨false, msg, hmsg⟩
  · -- no selector mode: selectAll is false and the selector is nil
    have hboth : b.selectAll = false ∧ b.selector = none := by
      simpa [Builder.selectorPopulated] using hpop
    have hsa := hboth.1
    have hsel := hboth.2
    rw [evalBuilder_selector_of_not_selectAll hsa, hsel]
    have hpopF : ¬ (b.selectorPopulated = true ∧
        (b.names ≠ [] ∨ b.resourceTuples ≠ [] ∨ b.paths ≠ [])) := fun hc => hpop hc.1
    by_cases ht : b.resourceTuples = []
    · by_cases hn : b.names = []
      · -- only the path mode can be mixed: paths and resources are both populated
        have hp : b.paths ≠ [] ∧ b.resources ≠ [] := by
          rcases hmix with hc | ⟨ht', _⟩ | ⟨ht', _⟩ | ⟨hn', _⟩ | hc
          · exact absurd hc hpopF
          · exact absurd ht ht'
          · exact absurd ht ht'
          · exact absurd hn hn'
          · exact hc
        rw [if_neg (by simp [ht]), if_neg (by simp [hn]),
          if_pos (by simpa using length_bne_zero_of_ne_nil hp.1)]
        obtain ⟨sing, msg, hmsg⟩ := pathMode_mixed_error b.evalBuilder (by simpa using hp.2)
        exact ⟨sing, msg, hmsg⟩
      · -- name mode runs; the mix forces path sources alongside it
        have hp : b.paths ≠ [] := by
          rcases hmix with hc | ⟨ht', _⟩ | ⟨ht', _⟩ | ⟨_, hp⟩ | ⟨hp, _⟩
          · exact absurd hc hpopF
          · exact absurd ht ht'
          · exact absurd ht ht'
          · exact hp
          · exact hp
        rw [if_neg (by simp [ht]), if_pos (by simpa using length_bne_zero_of_ne_nil hn)]
        obtain ⟨sing, msg, hmsg⟩ := nameMode_mixed_error m b.evalBuilder (by simpa using hp)
        exact ⟨sing, msg, hmsg⟩
    · -- tuple mode runs; the mix forces paths or bulk resources alongside it
      have hp : b.paths ≠ [] ∨ b.resources ≠ [] := by
        rcases hmix with hc | ⟨_, hp⟩ | ⟨_, hr⟩ | ⟨_, hp⟩ | ⟨hp, _⟩
        · exact absurd hc hpopF
        · exact Or.inl hp
        · exact Or.inr hr
        · exact Or.inl hp
        · exact Or.inl hp
      rw [if_pos (by simpa using length_bne_zero_of_ne_nil ht)]
      obtain ⟨sing, msg, hmsg⟩ := tupleMode_mixed_error m b.evalBuilder (by simpa using hp)
      exact ⟨sing, msg, hmsg⟩

/-- Witness for C1: a selector combined with an explicit name. -/
theorem visitorResult_forbidden_mix_config_error_witness :
    ({ selector := some ["a=b"], names := ["x"] } : Builder).errs = [] ∧
    ({ selector := some ["a=b"], names := ["x"] } : Builder).forbiddenModeMix ∧
    (∃ sing : Bool, ∃ msg : String,
      ({ selector := some ["a=b"], names := ["x"] } : Builder).visitorResult testMapper =
        ({ singular := sing, err := some (.configErr msg) }, [])) :=
  ⟨rfl,
   Or.inl ⟨by rfl, Or.inl (by simp)⟩,
   visitorResult_forbidden_mix_config_error { selector := some ["a=b"], names := ["x"] }
     testMapper rfl (Or.inl ⟨by rfl, Or.inl (by simp)⟩)⟩

theorem hasCombinedTypeArgs_mixed (args : List String)
    (hsome : ∃ a ∈ args, a.data.contains '/' = true)
    (hnotall : ∃ a ∈ args, a.data.contains '/' = false) :
    hasCombinedTypeArgs args =
      (true, some (.configErr "when passing arguments in resource/name form, all arguments must include the resource")) := by
  obtain ⟨a, ha, hpa⟩ := hsome
  have h1 : 0 < (args.filter fun s => s.data.contains '/').length :=
    List.length_pos.mpr fun hnil => by
      have hmem : a ∈ args.filter fun s => s.data.contains '/' :=
        List.mem_filter.mpr ⟨ha, hpa⟩
      rw [hnil] at hmem
      exact List.not_mem_nil a hmem
  have hnall : ¬ ∀ c ∈ args, '/' ∈ c.data := by
    obtain ⟨c, hc, hpc⟩ := hnotall
    refine fun hall => ?_
    have : c.data.contains '/' = true := List.elem_eq_true_of_mem (hall c hc)
    rw [hpc] at this
    exact Bool.false_ne_true this
  rw [hasCombinedTypeArgs]
  have h1' : 0 < (args.filter fun s => decide ('/' ∈ s.data)).length := by simpa using h1
  simp [h1', hnall]

/-- C9: an argument list whose alias-expanded form mixes `resource/name`
arguments with plain arguments records exactly one configuration error
and leaves the builder's tuples, names, and resource types unchanged. -/
theorem resourceTypeOrNameArgs_mixed_slash (b : Builder) (m : Mapper) (allow : Bool)
    (args : List String)
    (hsome : ∃ a ∈ replaceAliases m args, a.data.contains '/' = true)
    (hnotall : ∃ a ∈ replaceAliases m args, a.data.contains '/' = false) :
    b.ResourceTypeOrNameArgs m allow args =
      { b with errs := b.errs ++
          [.configErr "when passing arguments in resource/name form, all arguments must include the resource"] } := by
  rw [Builder.ResourceTypeOrNameArgs, hasCombinedTypeArgs_mixed _ hsome hnotall]

/-- Witness for C9 at the concrete argument list `["pods/a", "svc"]`
(no aliases apply). -/
theorem resourceTypeOrNameArgs_mixed_slash_witness :
    ({} : Builder).ResourceTypeOrNameArgs testMapper false ["pods/a", "svc"] =
      { errs := [.configErr "when passing arguments in resource/name form, all arguments must include the resource"] } :=
  resourceTypeOrNameArgs_mixed_slash {} testMapper false ["pods/a", "svc"]
    ⟨"pods/a", by simp [replaceAliases, testMapper], by decide⟩
    ⟨"svc", by simp [replaceAliases, testMapper], by decide⟩

theorem tupleItems_error_err (ns : String) (mappings : List (String × RESTMapping))
    (clients : List (String × Nat)) (sing : Bool) (ts : List ResourceTuple) (r : Result)
    (h : tupleItems ns mappings clients sing ts = .error r) : ∃ e, r.err = some e := by
  induction ts generalizing r with
  | nil => simp [tupleItems] at h
  | cons t rest ih =>
    rw [tupleItems] at h
    rcases hm : mappings.lookup t.Resource with _ | mapping
    · simp only [hm, Except.error.injEq] at h
      exact ⟨_, by rw [← h]⟩
    · rcases hc : clients.lookup (mapping.apiVersion ++ "/" ++ mapping.resource) with _ | client
      · simp only [hm, hc, Except.error.injEq] at h
        exact ⟨_, by rw [← h]⟩
      · by_cases hns : (mapping.namespaced && ns.length == 0) = true
        · simp only [hm, hc, hns, if_true, Except.error.injEq] at h
          exact ⟨_, by rw [← h]⟩
        · rcases hrec : tupleItems ns mappings clients sing rest with r' | items
          · simp [hm, hc, hns, hrec, Except.map] at h
            obtain ⟨e, he⟩ := ih r' hrec
            exact ⟨e, h ▸ he⟩
          · simp [hm, hc, hns, hrec, Except.map] at h

theorem selectorMode_singular_false (m : Mapper) (b : Builder) (sel : labels.Selector) :
    (selectorMode m b sel).1.singular = false := by
  unfold selectorMode
  repeat' split
  all_goals rfl

theorem tupleMode_err_none_singular (m : Mapper) (b : Builder)
    (h : (tupleMode m b).1.err = none) :
    (tupleMode m b).1.singular = (b.resourceTuples.length == 1) := by
  by_cases h1 : (b.paths.length != 0) = true
  · rw [tupleMode, if_pos h1] at h
    simp at h
  by_cases h2 : (b.resources.length != 0) = true
  · rw [tupleMode, if_neg h1, if_pos h2] at h
    simp at h
  have hp : b.paths = [] := by simpa using h1
  have hr : b.resources = [] := by simpa using h2
  rcases hm : b.resourceTupleMappings m with e | mappings
  · simp [tupleMode, hp, hr, hm] at h
  rcases hc : buildClients m (mappings.map Prod.snd) [] with ⟨cres, effs⟩
  rcases cres with e | clients
  · simp [tupleMode, hp, hr, hm, hc] at h
  rcases hi : tupleItems b.«namespace» mappings clients (b.resourceTuples.length == 1)
      b.resourceTuples with r | items
  · obtain ⟨e, he⟩ := tupleItems_error_err _ _ _ _ _ _ hi
    simp [tupleMode, hp, hr, hm, hc, hi, he] at h
  · simp [tupleMode, hp, hr, hm, hc, hi]

theorem nameMode_err_none_singular (m : Mapper) (b : Builder)
    (h : (nameMode m b).1.err = none) :
    (nameMode m b).1.singular = (b.names.length == 1) := by
  by_cases h1 : (b.paths.length != 0) = true
  · rw [nameMode, if_pos h1] at h
    simp at h
  by_cases h2 : (b.resources.length == 0) = true
  · rw [nameMode, if_neg h1, if_pos h2] at h
    simp at h
  by_cases h3 : (b.resources.length > 1)
  · simp only [nameMode, if_neg h1, if_neg h2, if_pos h3] at h
    simp at h
  have hp : b.paths = [] := by simpa using h1
  have hr1 : b.resources.length = 1 := by
    have ha : b.resources.length ≠ 0 := by simpa using h2
    omega
  rcases hm : b.resourceMappings m with e | mappings
  · simp [nameMode, hp, hr1, hm] at h
  rcases mappings with _ | ⟨mapping, restm⟩
  · simp [nameMode, hp, hr1, hm] at h
  rcases hcl : m.clientForMapping mapping with e | client
  · simp [nameMode, hp, hr1, hm, hcl] at h
  by_cases hns : (mapping.namespaced && b.«namespace».length == 0) = true
  · simp [nameMode, hp, hr1, hm, hcl, hns] at h
  rcases hni : nameInfos m client mapping
      (if mapping.namespaced then b.«namespace» else "") b.names with ⟨res, effs⟩
  rcases res with e | visitors
  · simp [nameMode, hp, hr1, hm, hcl, hns, hni] at h
  · simp [nameMode, hp, hr1, hm, hcl, hns, hni]

theorem pathMode_err_none_singular (b : Builder)
    (h : (pathMode b).1.err = none) :
    (pathMode b).1.singular = (!b.dir && !b.stream && b.paths.length == 1) := by
  simp only [pathMode] at h ⊢
  split_ifs at h ⊢ <;> try simp at h
  all_goals rfl

/-- C3: whenever `visitorResult` produces an error-free `Result`, its
`singular` flag is true iff exactly one concrete resource identity can
result: one tuple in tuple mode, one name in name mode, one
non-directory non-stream path source in path mode, and never in selector
mode. -/
theorem result_singular_characterization (b : Builder) (m : Mapper)
    (h : (b.visitorResult m).1.err = none) :
    (b.visitorResult m).1.singular = b.specSingular := by
  by_cases hlen : b.errs.length > 0
  · rw [Builder.visitorResult, if_pos hlen] at h
    simp at h
  rcases hsel : b.evalBuilder.selector with _ | sel
  · have hsa : b.selectAll = false := by
      by_contra hc
      rw [evalBuilder_selector_of_selectAll (by simpa using hc)] at hsel
      simp [labels.Everything] at hsel
    have hselb : b.selector = none := by
      rw [evalBuilder_selector_of_not_selectAll hsa] at hsel
      exact hsel
    have hpop : b.selectorPopulated = false := by
      simp [Builder.selectorPopulated, hsa, hselb]
    simp only [Builder.visitorResult, if_neg hlen, hsel, evalBuilder_resourceTuples,
      evalBuilder_names, evalBuilder_paths] at h ⊢
    by_cases ht : (b.resourceTuples.length != 0) = true
    · rw [if_pos ht] at h ⊢
      rw [tupleMode_err_none_singular m b.evalBuilder h]
      simp [Builder.specSingular, hpop, ht]
    rw [if_neg ht] at h ⊢
    by_cases hn : (b.names.length != 0) = true
    · rw [if_pos hn] at h ⊢
      rw [nameMode_err_none_singular m b.evalBuilder h]
      simp [Builder.specSingular, hpop, ht, hn]
    rw [if_neg hn] at h ⊢
    by_cases hpth : (b.paths.length != 0) = true
    · rw [if_pos hpth] at h ⊢
      rw [pathMode_err_none_singular b.evalBuilder h]
      simp [Builder.specSingular, hpop, ht, hn, hpth]
    rw [if_neg hpth] at h
    simp at h
  · have hpop : b.selectorPopulated = true := by
      by_cases hsa : b.selectAll = true
      · simp [Builder.selectorPopulated, hsa]
      · have hss : b.selector = some sel := by
          rw [evalBuilder_selector_of_not_selectAll (by simpa using hsa)] at hsel
          exact hsel
        simp [Builder.selectorPopulated, hss]
    simp only [Builder.visitorResult, if_neg hlen, hsel] at h ⊢
    rw [selectorMode_singular_false]
    simp [Builder.specSingular, hpop]

/-- Witness for C3 at a concrete single-path builder where the result is
error-free and singular. -/
theorem result_singular_characterization_witness :
    (({ paths := [.pathV "f.json" false] } : Builder).visitorResult testMapper).1.err = none ∧
    (({ paths := [.pathV "f.json" false] } : Builder).visitorResult testMapper).1.singular =
      ({ paths := [.pathV "f.json" false] } : Builder).specSingular :=
  ⟨rfl, result_singular_characterization { paths := [.pathV "f.json" false] } testMapper rfl⟩

theorem evalBuilder_resourceMappings (b : Builder) (m : Mapper) :
    b.evalBuilder.resourceMappings m = b.resourceMappings m := by
  rw [Builder.resourceMappings, Builder.resourceMappings]
  simp

theorem nameInfos_first_failure (m : Mapper) (client : Nat) (mapping : RESTMapping)
    (ns : String) (pre post : List String) (n : String) (e : Err)
    (hpre : ∀ x ∈ pre, m.getInfo client mapping ns x = none)
    (hn : m.getInfo client mapping ns n = some e) :
    nameInfos m client mapping ns (pre ++ n :: post) =
      (.error e, pre.map (Effect.fetch client mapping ns) ++ [.fetch client mapping ns n]) := by
  induction pre with
  | nil => simp [nameInfos, hn]
  | cons x rest ih =>
    have hx : m.getInfo client mapping ns x = none := hpre x (by simp)
    have hrest : ∀ y ∈ rest, m.getInfo client mapping ns y = none := fun y hy =>
      hpre y (by simp [hy])
    simp [nameInfos, hx, ih hrest, Except.map]

theorem nameMode_fetch_failure (m : Mapper) (b : Builder) (mapping : RESTMapping) (client : Nat)
    (pre post : List String) (n : String) (e : Err)
    (hpaths : b.paths = []) (hres : b.resources.length = 1)
    (hmap : b.resourceMappings m = .ok [mapping])
    (hcl : m.clientForMapping mapping = .ok client)
    (hns : (mapping.namespaced && b.«namespace».length == 0) = false)
    (hnames : b.names = pre ++ n :: post)
    (hpre : ∀ x ∈ pre,
      m.getInfo client mapping (if mapping.namespaced then b.«namespace» else "") x = none)
    (hfail : m.getInfo client mapping (if mapping.namespaced then b.«namespace» else "") n = some e) :
    nameMode m b =
      ({ singular := b.names.length == 1, err := some e },
       .clientFor mapping ::
         (pre.map (Effect.fetch client mapping (if mapping.namespaced then b.«namespace» else "")) ++
          [Effect.fetch client mapping (if mapping.namespaced then b.«namespace» else "") n])) := by
  have hniF := nameInfos_first_failure m client mapping
    (if mapping.namespaced then b.«namespace» else "") pre post n e hpre hfail
  have h3 : ¬ b.resources.length > 1 := by omega
  simp only [nameMode, hpaths, hres, hmap, hcl, hns, hnames, hniF, h3]
  simp

/-- C4: in name mode evaluation fetches each name's `Info` inline
(`Info.Get` during `visitorResult`); the first fetch failure aborts
evaluation with that error, builds no visitor, and leaves the remaining
names unattempted — the effect trace ends at the failing fetch — and
this holds for either value of `continueOnError`, which the name branch
never consults. -/
theorem visitorResult_nameMode_fetch_failure (b : Builder) (m : Mapper)
    (mapping : RESTMapping) (client : Nat) (pre post : List String) (n : String) (e : Err)
    (herrs : b.errs = []) (hall : b.selectAll = false) (hsel : b.selector = none)
    (htup : b.resourceTuples = []) (hpaths : b.paths = [])
    (hres : b.resources.length = 1)
    (hmap : b.resourceMappings m = .ok [mapping])
    (hcl : m.clientForMapping mapping = .ok client)
    (hns : (mapping.namespaced && b.«namespace».length == 0) = false)
    (hnames : b.names = pre ++ n :: post)
    (hpre : ∀ x ∈ pre,
      m.getInfo client mapping (if mapping.namespaced then b.«namespace» else "") x = none)
    (hfail : m.getInfo client mapping (if mapping.namespaced then b.«namespace» else "") n = some e) :
    b.visitorResult m =
      ({ singular := b.names.length == 1, err := some e },
       .clientFor mapping ::
         (pre.map (Effect.fetch client mapping (if mapping.namespaced then b.«namespace» else "")) ++
          [Effect.fetch client mapping (if mapping.namespaced then b.«namespace» else "") n])) := by
  have hlen : ¬ b.errs.length > 0 := by simp [herrs]
  have hselE : b.evalBuilder.selector = none := by
    rw [evalBuilder_selector_of_not_selectAll hall]
    exact hsel
  rw [Builder.visitorResult, if_neg hlen]
  simp only [hselE, evalBuilder_resourceTuples, evalBuilder_names, evalBuilder_paths, htup]
  rw [if_neg (by simp), if_pos (by simp [hnames])]
  rw [nameMode_fetch_failure m b.evalBuilder mapping client pre post n e
    (by simpa using hpaths) (by simpa using hres)
    (by rw [evalBuilder_resourceMappings]; exact hmap) hcl
    (by simpa using hns) (by simpa using hnames)
    (by simpa using hpre) (by simpa using hfail)]
  simp

/-- Witness for C4: three names where the second fetch fails, with
`continueOnError` set; the third name is never fetched. -/
theorem visitorResult_nameMode_fetch_failure_witness :
    ({ names := ["a", "missing", "c"], resources := ["pods"], «namespace» := "ns",
       continueOnError := true } : Builder).visitorResult testMapper =
      ({ singular := false, err := some (.oracleErr "pod not found") },
       [.clientFor podMapping, .fetch 1 podMapping "ns" "a", .fetch 1 podMapping "ns" "missing"]) := by
  have h := visitorResult_nameMode_fetch_failure
    { names := ["a", "missing", "c"], resources := ["pods"], «namespace» := "ns",
      continueOnError := true }
    testMapper podMapping 1 ["a"] ["c"] "missing" (.oracleErr "pod not found")
    rfl rfl rfl rfl rfl rfl rfl rfl rfl rfl
    (by
      intro x hx
      rw [List.mem_singleton.mp hx]
      rfl)
    rfl
  simpa using h

theorem buildTupleMappings_canonical_nodup (m : Mapper) (ts : List ResourceTuple)
    (mappings : List (String × RESTMapping)) (canonical : List String)
    (hnd : canonical.Nodup) (mp : List (String × RESTMapping)) (c : List String)
    (h : buildTupleMappings m ts mappings canonical = .ok (mp, c)) : c.Nodup := by
  induction ts generalizing mappings canonical with
  | nil =>
    simp only [buildTupleMappings, Except.ok.injEq, Prod.mk.injEq] at h
    rw [← h.2]
    exact hnd
  | cons t rest ih =>
    rw [buildTupleMappings] at h
    by_cases hl : (List.lookup t.Resource mappings).isSome = true
    · rw [if_pos hl] at h
      exact ih _ _ hnd h
    · rw [if_neg hl] at h
      rcases hvk : m.versionAndKindForResource t.Resource with e | vk
      · simp [hvk] at h
      rcases hrm : m.restMapping vk.2 vk.1 with e | mapping
      · simp [hvk, hrm] at h
      simp only [hvk, hrm] at h
      refine ih _ _ ?_ h
      by_cases hmem : mapping.resource ∈ canonical
      · simpa [hmem] using hnd
      · simp [hmem, List.nodup_append, hnd]

/-- C5 counterexample: with the single-resource-type policy set, the two
aliases `po` and `pods` of the one canonical type `pods` make
`resourceMappings` fail with the configuration error even though only
one deduplicated canonical resource name appears among the resolved
mappings — the check counts raw input strings, not canonical names. -/
theorem singleResourceType_counts_raw_strings :
    ({ resources := ["po", "pods"], singleResourceType := true } : Builder).resourceMappings
        testMapper = .error (.configErr "you may only specify a single resource type") ∧
    (resolveResources testMapper ["po", "pods"]).map
        (fun l => dedupAux [] (l.map RESTMapping.resource)) = .ok ["pods"] :=
  ⟨rfl, rfl⟩

/-- C5 amended: with the single-resource-type policy set,
`resourceTupleMappings` fails with "you may only specify a single
resource type" iff more than one deduplicated canonical resource name
appears among the resolved tuple mappings (and the canonical list really
is deduplicated), whereas `resourceMappings` fails with that policy
error iff more than one raw resource string was supplied — it counts
raw strings before any resolution: with more than one raw string it
returns exactly that error, and with at most one raw string it returns
exactly the plain resolution of the resource list, inserting no policy
error. -/
theorem singleResourceType_policy (b : Builder) (m : Mapper)
    (h : b.singleResourceType = true) :
    ((b.resources.length > 1 →
        b.resourceMappings m = .error (.configErr "you may only specify a single resource type")) ∧
     (¬ b.resources.length > 1 →
        b.resourceMappings m = resolveResources m b.resources)) ∧
    (∀ mappings canonical,
      buildTupleMappings m b.resourceTuples [] [] = .ok (mappings, canonical) →
      canonical.Nodup ∧
      (b.resourceTupleMappings m = .error (.configErr "you may only specify a single resource type")
        ↔ 1 < canonical.length)) := by
  refine ⟨⟨fun hgt => ?_, fun hle => ?_⟩, fun mappings canonical hb => ?_⟩
  · rw [Builder.resourceMappings, if_pos (by simp [h, hgt])]
  · rw [Builder.resourceMappings, if_neg (by simp [hle])]
  · refine ⟨buildTupleMappings_canonical_nodup m b.resourceTuples [] [] (by simp) _ _ hb, ?_⟩
    rw [Builder.resourceTupleMappings]
    simp only [hb]
    by_cases hc : 1 < canonical.length
    · simp [hc, h]
    · simp [hc, h]

/-- Witness for C5 (amended): all three parts at concrete inputs — bulk
resources `["po", "pods"]` fail on the raw count of two, the single bulk
resource `["pods"]` resolves plainly with no policy error, and the
tuples `po/a, pods/b` resolve to one deduplicated canonical name and do
not fail. -/
theorem singleResourceType_policy_witness :
    (({ resources := ["po", "pods"], singleResourceType := true } : Builder).resourceMappings
        testMapper = .error (.configErr "you may only specify a single resource type")) ∧
    (({ resources := ["pods"], singleResourceType := true } : Builder).resourceMappings
        testMapper = resolveResources testMapper ["pods"]) ∧
    (["pods"].Nodup ∧
      (({ resourceTuples := [⟨"po", "a"⟩, ⟨"pods", "b"⟩], singleResourceType := true } :
          Builder).resourceTupleMappings testMapper =
          .error (.configErr "you may only specify a single resource type") ↔
        1 < (["pods"] : List String).length)) :=
  ⟨((singleResourceType_policy
      { resources := ["po", "pods"], singleResourceType := true } testMapper rfl).1).1 (by decide),
   ((singleResourceType_policy
      { resources := ["pods"], singleResourceType := true } testMapper rfl).1).2 (by decide),
   (singleResourceType_policy
      { resourceTuples := [⟨"po", "a"⟩, ⟨"pods", "b"⟩], singleResourceType := true }
      testMapper rfl).2 [("pods", podMapping), ("po", podMapping)] ["pods"] rfl⟩

/-- C6 counterexample: for a path-mode configuration with both latest
and flatten set, `Do` wraps a second `FlattenListVisitor` around the one
the path branch already applied (the visitor tree carries two nested
flatten wrappers), and also attaches the lazy refresh after the eager
one. -/
theorem do_path_latest_flatten_double :
    (({ paths := [.pathV "f.json" false], latest := true, flatten := true } : Builder).Do
        testMapper).1.visitor =
      some (.decorated
        (.flattenList (.decorated (.flattenList (.visitorList [.pathV "f.json" false]))
          [.retrieveLatest]))
        [.filterNamespace, .retrieveLazy]) := rfl

/-- C6 amended: after an error-free `visitorResult`, `Do` overlays, in
fixed order: flatten whenever requested (even if the path branch already
applied it), then the namespace-default decorator if requested, the
namespace-require decorator if requested, the namespace-filter decorator
always, and the lazy latest-refresh whenever latest was requested (even
if the path branch already applied the eager refresh). -/
theorem do_overlay_order (b : Builder) (m : Mapper) (r : Result) (effs : List Effect)
    (h : b.visitorResult m = (r, effs)) (hok : r.err = none) (v : Visitor)
    (hv : r.visitor = some v) :
    b.Do m =
      ({ r with visitor := some (.decorated (if b.flatten then .flattenList v else v)
          ((if b.defaultNamespace then [.setNamespace b.«namespace»] else []) ++
           (if b.requireNamespace then [.requireNs b.«namespace»] else []) ++
           [.filterNamespace] ++
           (if b.latest then [.retrieveLazy] else []))) }, effs) := by
  rw [Builder.Do, h]
  cases hb : b.flatten <;> simp [hok, hv, hb, doHelpers]

/-- Witness for C6 (amended) at the concrete path-mode builder with
latest and flatten both set. -/
theorem do_overlay_order_witness :
    ({ paths := [.pathV "f.json" false], latest := true, flatten := true } : Builder).Do
        testMapper =
      ({ singular := true,
         visitor := some (.decorated
           (.flattenList (.decorated (.flattenList (.visitorList [.pathV "f.json" false]))
             [.retrieveLatest]))
           [.filterNamespace, .retrieveLazy]),
         sources := [.pathV "f.json" false] }, []) :=
  do_overlay_order
    { paths := [.pathV "f.json" false], latest := true, flatten := true } testMapper
    { singular := true,
      visitor := some (.decorated (.flattenList (.visitorList [.pathV "f.json" false]))
        [.retrieveLatest]),
      sources := [.pathV "f.json" false] } [] rfl rfl
    (.decorated (.flattenList (.visitorList [.pathV "f.json" false])) [.retrieveLatest]) rfl

end KubectlResource
